import Mathlib

/-!
Shallow embedding of `spinn_blink.c` (the SpiNNaker LED PWM app) and proofs
of the specified properties of its timer-tick handler.

The C core is:

  const volatile uint *led_value = SDRAM_BASE_UNBUF;
  uint counter = 0;

  void on_timer_tick(uint _1, uint _2) {
      counter += 1;
      counter &= 0xFF;
      if (counter <= (*led_value)) {
          spin1_led_control(LED_ON(BLINK_LED));
      } else {
          spin1_led_control(LED_OFF(BLINK_LED));
      }
  }

`uint` is a 32-bit unsigned integer, so `counter += 1` wraps modulo 2^32;
the mask `&= 0xFF` then keeps the low 8 bits.  The handler's only outward
effect is exactly one call to `spin1_led_control`, which we record as a
trace.  The word `*led_value` (the Duty Store, first word of SDRAM) is
externally written; we model it as a component of the observable state that
the handler reads but never writes.
-/

namespace SpinnBlink

/-- The modulus of the machine `uint` type (32-bit unsigned). -/
def uintMod : Nat := 2 ^ 32

/-- `#define BLINK_LED 0` -/
def BLINK_LED : Nat := 0

/-- An argument to `spin1_led_control`: either `LED_ON(led)` or
`LED_OFF(led)` for a given LED number. -/
inductive LedCtl where
  | LED_ON : Nat → LedCtl
  | LED_OFF : Nat → LedCtl
  deriving DecidableEq, Repr

/-- Whether a driver call switches the LED on. -/
def LedCtl.isOn : LedCtl → Bool
  | LED_ON _ => true
  | LED_OFF _ => false

/-- The state visible to the handler: the global `counter` and the word
`*led_value` in SDRAM (the Duty Store). -/
structure State where
  counter : Nat
  led_value : Nat
  deriving DecidableEq, Repr

/-- Initial value of the global `uint counter = 0`. -/
def counter_init : Nat := 0

/-- `counter += 1; counter &= 0xFF;` on a 32-bit unsigned `counter`. -/
def counterStep (c : Nat) : Nat := ((c + 1) % uintMod) &&& 0xFF

/-- One invocation of `on_timer_tick(_1, _2)`.  Returns the state after the
call together with the list of `spin1_led_control` calls it made, in
order.  The two callback parameters are unused, exactly as in the source. -/
def on_timer_tick (_1 _2 : Nat) (s : State) : State × List LedCtl :=
  if counterStep s.counter ≤ s.led_value then
    ({ s with counter := counterStep s.counter }, [LedCtl.LED_ON BLINK_LED])
  else
    ({ s with counter := counterStep s.counter }, [LedCtl.LED_OFF BLINK_LED])

/-- A run of the control loop over a list of Duty Store values, one per
tick (the external writer may change the word between any two ticks).
Returns the final counter and the per-tick LED on/off outputs. -/
def run (c : Nat) : List Nat → Nat × List Bool
  | [] => (c, [])
  | d :: ds =>
    ((run (on_timer_tick 0 0 { counter := c, led_value := d }).1.counter ds).1,
     (on_timer_tick 0 0 { counter := c, led_value := d }).2.map LedCtl.isOn ++
       (run (on_timer_tick 0 0 { counter := c, led_value := d }).1.counter ds).2)

/-- The state transition of a tick, forgetting the trace. -/
def tickStep (s : State) : State := (on_timer_tick 0 0 s).1

/-! ### Basic lemmas about the counter update -/

/-- The masked 32-bit increment is plain increment modulo 256. -/
lemma counterStep_eq (c : Nat) : counterStep c = (c + 1) % 256 := by
  have h1 : ((c + 1) % uintMod) &&& 0xFF = ((c + 1) % uintMod) % 2 ^ 8 := by
    have := Nat.and_pow_two_sub_one_eq_mod ((c + 1) % uintMod) 8
    norm_num at this ⊢
    exact this
  have h2 : (2 ^ 8 : Nat) ∣ uintMod := by
    show (2 ^ 8 : Nat) ∣ 2 ^ 32
    exact pow_dvd_pow 2 (by norm_num)
  calc counterStep c = ((c + 1) % uintMod) % 2 ^ 8 := h1
    _ = (c + 1) % 2 ^ 8 := Nat.mod_mod_of_dvd _ h2
    _ = (c + 1) % 256 := by norm_num

lemma counterStep_lt (c : Nat) : counterStep c < 256 := by
  rw [counterStep_eq]; exact Nat.mod_lt _ (by norm_num)

/-- Closed form of a single handler invocation. -/
lemma on_timer_tick_eq (a b : Nat) (s : State) :
    on_timer_tick a b s =
      ({ counter := counterStep s.counter, led_value := s.led_value },
       [if counterStep s.counter ≤ s.led_value then LedCtl.LED_ON BLINK_LED
        else LedCtl.LED_OFF BLINK_LED]) := by
  unfold on_timer_tick
  split <;> simp_all

lemma run_nil (c : Nat) : run c [] = (c, []) := rfl

lemma run_cons (c d : Nat) (ds : List Nat) :
    run c (d :: ds) =
      ((run (counterStep c) ds).1,
       decide (counterStep c ≤ d) :: (run (counterStep c) ds).2) := by
  show ((run (on_timer_tick 0 0 { counter := c, led_value := d }).1.counter ds).1,
     (on_timer_tick 0 0 { counter := c, led_value := d }).2.map LedCtl.isOn ++
       (run (on_timer_tick 0 0 { counter := c, led_value := d }).1.counter ds).2) = _
  rw [on_timer_tick_eq]
  by_cases h : counterStep c ≤ d <;> simp [h, LedCtl.isOn]

lemma run_length (ds : List Nat) : ∀ c, ((run c ds).2).length = ds.length := by
  induction ds with
  | nil => intro c; rfl
  | cons d ds ih => intro c; rw [run_cons]; simp [ih]

/-- Output characterization: the decision at tick index `i` (0-based) uses
exactly the Duty Store value supplied at that tick, compared against the
counter value `(c + 1 + i) % 256`. -/
lemma run_getD (ds : List Nat) : ∀ c i, i < ds.length →
    (run c ds).2.getD i false = decide ((c + 1 + i) % 256 ≤ ds.getD i 0) := by
  induction ds with
  | nil => intro c i h; simp at h
  | cons d ds ih =>
    intro c i h
    rw [run_cons]
    match i with
    | 0 => simp [counterStep_eq]
    | Nat.succ j =>
      have hj : j < ds.length := by simpa using h
      have := ih (counterStep c) j hj
      simp only [List.getD_cons_succ]
      rw [this, counterStep_eq]
      have harith : ((c + 1) % 256 + 1 + j) % 256 = (c + 1 + (j + 1)) % 256 := by
        rw [Nat.add_assoc ((c + 1) % 256) 1 j, Nat.mod_add_mod]
        congr 1
        omega
      rw [harith]

/-- The final counter of a run stays within the 8-bit range. -/
lemma run_fst_le (ds : List Nat) : ∀ c, c ≤ 255 → (run c ds).1 ≤ 255 := by
  induction ds with
  | nil => intro c h; exact h
  | cons d ds ih =>
    intro c h
    rw [run_cons]
    exact ih (counterStep c) (Nat.lt_succ_iff.mp (counterStep_lt c))

/-- Outputs of a constant-duty run, in closed form. -/
lemma run_const (d : Nat) : ∀ (n c : Nat),
    (run c (List.replicate n d)).2 =
      (List.range n).map (fun i => decide ((c + 1 + i) % 256 ≤ d)) := by
  intro n
  induction n with
  | zero => intro c; rfl
  | succ n ih =>
    intro c
    rw [List.replicate_succ, run_cons, ih (counterStep c),
      List.range_succ_eq_map, List.map_cons, List.map_map]
    refine congrArg₂ _ ?_ ?_
    · simp [counterStep_eq]
    · refine List.map_congr_left ?_
      intro j _
      simp only [Function.comp]
      rw [counterStep_eq, Nat.add_assoc ((c + 1) % 256) 1 j, Nat.mod_add_mod]
      refine congrArg (fun x => decide (x ≤ d)) ?_
      refine congrArg (fun x => x % 256) ?_
      omega

/-- Counting the naturals below `d` within `range n`. -/
lemma countP_range_lt (d : Nat) : ∀ n : Nat,
    (List.range n).countP (fun i => decide (i < d)) = min d n := by
  intro n
  induction n with
  | zero => simp
  | succ n ih =>
    rw [List.range_succ, List.countP_append, ih]
    by_cases h : n < d <;> simp [List.countP_cons, h] <;> omega

/-- In a list of booleans the `false` entries are all the rest. -/
lemma count_false_eq (l : List Bool) : l.count false = l.length - l.count true := by
  induction l with
  | nil => rfl
  | cons b l ih =>
    have hle := List.count_le_length true l
    cases b <;> simp [List.count_cons, ih] <;> omega

/-- Counting `true` in the image of a boolean-valued map. -/
lemma count_true_map (f : Nat → Bool) (l : List Nat) :
    (l.map f).count true = l.countP f := by
  rw [List.count_eq_countP, List.countP_map]
  refine List.countP_congr ?_
  intro a _
  simp [Function.comp]

/-- Number of ON outputs over one full 256-tick period from counter 0. -/
lemma count_true_period (d : Nat) (h : d ≤ 255) :
    (run 0 (List.replicate 256 d)).2.count true = d + 1 := by
  rw [run_const d 256 0, count_true_map]
  have hsplit : List.range 256 = List.range 255 ++ [255] := List.range_succ 255
  rw [hsplit, List.countP_append]
  have hmain : (List.range 255).countP (fun i => decide ((0 + 1 + i) % 256 ≤ d))
      = (List.range 255).countP (fun i => decide (i < d)) := by
    refine List.countP_congr ?_
    intro i hi
    have hi' : i < 255 := List.mem_range.mp hi
    have hmod : (0 + 1 + i) % 256 = 1 + i := Nat.mod_eq_of_lt (by omega)
    simp only [hmod, decide_eq_true_eq]
    omega
  have hlast : List.countP (fun i => decide ((0 + 1 + i) % 256 ≤ d)) [255] = 1 := by
    simp
  rw [hmain, hlast, countP_range_lt]
  omega

/-- Length of one full period's output list. -/
lemma length_period (d : Nat) :
    ((run 0 (List.replicate 256 d)).2).length = 256 := by
  rw [run_length]
  exact List.length_replicate 256 d

/-- Closed form of the state transition of one tick. -/
lemma tickStep_eq (s : State) :
    tickStep s = { counter := counterStep s.counter, led_value := s.led_value } := by
  show (on_timer_tick 0 0 s).1 = _
  rw [on_timer_tick_eq]

/-- Iterating the tick transition `n` times adds `n` to the counter mod 256. -/
lemma tickStep_iter (n : Nat) : ∀ s : State, s.counter < 256 →
    tickStep^[n] s = { counter := (s.counter + n) % 256, led_value := s.led_value } := by
  induction n with
  | zero =>
    intro s h
    simp [Nat.mod_eq_of_lt h]
  | succ n ih =>
    intro s h
    rw [Function.iterate_succ_apply', ih s h, tickStep_eq]
    simp only [counterStep_eq]
    rw [Nat.mod_add_mod]
    refine congrArg (fun x => State.mk x s.led_value) ?_
    refine congrArg (fun x => x % 256) ?_
    omega

/-! ### The specified claims -/

/-- Claim C1: at every tick, the handler issues ON exactly when the
post-increment counter value is at most the duty value read at that tick,
and OFF otherwise. -/
theorem spec_C1 (a b : Nat) (s : State) :
    (on_timer_tick a b s).2 =
      [if (on_timer_tick a b s).1.counter ≤ s.led_value then LedCtl.LED_ON BLINK_LED
       else LedCtl.LED_OFF BLINK_LED] := by
  rw [on_timer_tick_eq]

/-- Claim C2: for a fixed duty value d ≤ 255, over 256 consecutive ticks
starting from counter 0 the output is ON on exactly d+1 ticks and OFF on
exactly 255−d ticks. -/
theorem spec_C2 (d : Nat) (h : d ≤ 255) :
    (run counter_init (List.replicate 256 d)).2.count true = d + 1 ∧
    (run counter_init (List.replicate 256 d)).2.count false = 255 - d := by
  simp only [counter_init]
  have ht := count_true_period d h
  have hf := count_false_eq ((run 0 (List.replicate 256 d)).2)
  have hl := length_period d
  exact ⟨ht, by omega⟩

/-- Witness for C2 at d = 128: 129 ON ticks and 127 OFF ticks. -/
theorem spec_C2_witness :
    (128 : Nat) ≤ 255 ∧
    ((run counter_init (List.replicate 256 128)).2.count true = 128 + 1 ∧
     (run counter_init (List.replicate 256 128)).2.count false = 255 - 128) :=
  ⟨by decide, spec_C2 128 (by decide)⟩

/-- Claim C3: the counter starts at 0, every invocation sets it to
(previous + 1) mod 256, and it stays within [0, 255] after any number of
ticks from startup. -/
theorem spec_C3 :
    counter_init = 0 ∧
    (∀ a b s, (on_timer_tick a b s).1.counter = (s.counter + 1) % 256) ∧
    (∀ ds, (run counter_init ds).1 ≤ 255) := by
  refine ⟨rfl, ?_, ?_⟩
  · intro a b s
    rw [on_timer_tick_eq]
    exact counterStep_eq s.counter
  · intro ds
    exact run_fst_le ds counter_init (by decide)

/-- Claim C4: a duty value of 256 or more makes every tick turn the LED on,
with the same driver call as duty 255. -/
theorem spec_C4 (a b : Nat) (s : State) (h : 256 ≤ s.led_value) :
    (on_timer_tick a b s).2 = [LedCtl.LED_ON BLINK_LED] ∧
    (on_timer_tick a b s).2 = (on_timer_tick a b { s with led_value := 255 }).2 := by
  have h1 : counterStep s.counter ≤ s.led_value :=
    le_of_lt (lt_of_lt_of_le (counterStep_lt s.counter) h)
  have h2 : counterStep s.counter ≤ 255 := Nat.lt_succ_iff.mp (counterStep_lt s.counter)
  rw [on_timer_tick_eq, on_timer_tick_eq]
  simp [h1, h2]

/-- Witness for C4 at counter 7, duty 1000. -/
theorem spec_C4_witness :
    256 ≤ ({ counter := 7, led_value := 1000 } : State).led_value ∧
    ((on_timer_tick 0 0 { counter := 7, led_value := 1000 }).2 = [LedCtl.LED_ON BLINK_LED] ∧
     (on_timer_tick 0 0 { counter := 7, led_value := 1000 }).2 =
       (on_timer_tick 0 0 { ({ counter := 7, led_value := 1000 } : State) with
         led_value := 255 }).2) :=
  ⟨by decide, spec_C4 0 0 { counter := 7, led_value := 1000 } (by decide)⟩

/-- Claim C5: with duty 0, the LED is turned on exactly on ticks where the
post-increment counter is 0, off on every other tick, and one full period
from counter 0 has exactly one ON tick. -/
theorem spec_C5 (a b : Nat) (s : State) (h : s.led_value = 0) :
    ((on_timer_tick a b s).2 = [LedCtl.LED_ON BLINK_LED] ↔
      (on_timer_tick a b s).1.counter = 0) ∧
    ((on_timer_tick a b s).2 = [LedCtl.LED_OFF BLINK_LED] ↔
      (on_timer_tick a b s).1.counter ≠ 0) ∧
    (run counter_init (List.replicate 256 0)).2.count true = 1 := by
  rw [on_timer_tick_eq, h]
  refine ⟨?_, ?_, ?_⟩
  · by_cases hc : counterStep s.counter = 0 <;> simp [hc, Nat.le_zero]
  · by_cases hc : counterStep s.counter = 0 <;> simp [hc, Nat.le_zero]
  · exact count_true_period 0 (by decide)

/-- Witness for C5 at counter 41, duty 0. -/
theorem spec_C5_witness :
    ({ counter := 41, led_value := 0 } : State).led_value = 0 ∧
    (((on_timer_tick 0 0 { counter := 41, led_value := 0 }).2 = [LedCtl.LED_ON BLINK_LED] ↔
       (on_timer_tick 0 0 { counter := 41, led_value := 0 }).1.counter = 0) ∧
     ((on_timer_tick 0 0 { counter := 41, led_value := 0 }).2 = [LedCtl.LED_OFF BLINK_LED] ↔
       (on_timer_tick 0 0 { counter := 41, led_value := 0 }).1.counter ≠ 0) ∧
     (run counter_init (List.replicate 256 0)).2.count true = 1) :=
  ⟨rfl, spec_C5 0 0 { counter := 41, led_value := 0 } rfl⟩

/-- Claim C6: from any reachable counter value, 256 tick transitions return
the state to itself. -/
theorem spec_C6 (s : State) (h : s.counter < 256) : tickStep^[256] s = s := by
  rw [tickStep_iter 256 s h]
  have h2 : (s.counter + 256) % 256 = s.counter := by omega
  rw [h2]

/-- Witness for C6 at counter 17, duty 42. -/
theorem spec_C6_witness :
    ({ counter := 17, led_value := 42 } : State).counter < 256 ∧
    tickStep^[256] { counter := 17, led_value := 42 } =
      ({ counter := 17, led_value := 42 } : State) :=
  ⟨by decide, spec_C6 { counter := 17, led_value := 42 } (by decide)⟩

/-- Claim C7: the decision at tick index i uses exactly the Duty Store value
supplied at that tick — two runs that agree on the value at tick i produce
the same output there, whatever the other values were, and the decision is
the comparison against the counter at that tick. -/
theorem spec_C7 (c i : Nat) (ds₁ ds₂ : List Nat)
    (h₁ : i < ds₁.length) (h₂ : i < ds₂.length)
    (h : ds₁.getD i 0 = ds₂.getD i 0) :
    (run c ds₁).2.getD i false = (run c ds₂).2.getD i false ∧
    (run c ds₁).2.getD i false = decide ((c + 1 + i) % 256 ≤ ds₁.getD i 0) := by
  have e₁ := run_getD ds₁ c i h₁
  have e₂ := run_getD ds₂ c i h₂
  exact ⟨by rw [e₁, e₂, h], e₁⟩

/-- Witness for C7: two duty sequences agreeing only at index 1. -/
theorem spec_C7_witness :
    1 < ([3, 200, 7] : List Nat).length ∧
    1 < ([9, 200] : List Nat).length ∧
    ([3, 200, 7] : List Nat).getD 1 0 = ([9, 200] : List Nat).getD 1 0 ∧
    ((run 0 [3, 200, 7]).2.getD 1 false = (run 0 [9, 200]).2.getD 1 false ∧
     (run 0 [3, 200, 7]).2.getD 1 false =
       decide ((0 + 1 + 1) % 256 ≤ ([3, 200, 7] : List Nat).getD 1 0)) :=
  ⟨by decide, by decide, by decide,
   spec_C7 0 1 [3, 200, 7] [9, 200] (by decide) (by decide) (by decide)⟩

/-- Claim C8: every invocation makes exactly one Output Driver call and
leaves the Duty Store untouched — the only mutated state is the counter. -/
theorem spec_C8 (a b : Nat) (s : State) :
    ((on_timer_tick a b s).2).length = 1 ∧
    (on_timer_tick a b s).1.led_value = s.led_value := by
  rw [on_timer_tick_eq]
  exact ⟨rfl, rfl⟩

/-- Claim C9: the handler is deterministic — identical initial counters and
identical per-tick duty sequences give identical output sequences and final
counters. -/
theorem spec_C9 (c₁ c₂ : Nat) (ds₁ ds₂ : List Nat) (h₁ : c₁ = c₂) (h₂ : ds₁ = ds₂) :
    (run c₁ ds₁).2 = (run c₂ ds₂).2 ∧ (run c₁ ds₁).1 = (run c₂ ds₂).1 := by
  rw [h₁, h₂]
  exact ⟨rfl, rfl⟩

/-- Witness for C9: replaying a concrete duty sequence. -/
theorem spec_C9_witness :
    (0 : Nat) = 0 ∧ ([5, 300, 0] : List Nat) = [5, 300, 0] ∧
    ((run 0 [5, 300, 0]).2 = (run 0 [5, 300, 0]).2 ∧
     (run 0 [5, 300, 0]).1 = (run 0 [5, 300, 0]).1) :=
  ⟨rfl, rfl, spec_C9 0 0 [5, 300, 0] [5, 300, 0] rfl rfl⟩

/-- Claim C10: the two callback arguments of the handler are irrelevant —
any two argument pairs produce the same state update and the same driver
calls. -/
theorem spec_C10 (a₁ b₁ a₂ b₂ : Nat) (s : State) :
    on_timer_tick a₁ b₁ s = on_timer_tick a₂ b₂ s := rfl

end SpinnBlink
